import Mathlib

/-!
# Verification of the VisionX assistive obstacle-detection loop

A shallow embedding of `obstacle_detector.py`: a polling loop that reads webcam
frames, rate-limits analysis dispatches to a remote vision model, speaks the
results, and cleans up its camera/display resources on exit.

External collaborators (camera, remote inference API, text-to-speech engine,
keyboard) are modelled as oracles/inputs; the program's own control flow,
string handling and event ordering are translated statement by statement from
the source. Observable behaviour (console prints, audio playback, resource
acquisition/release, remote calls) is recorded as a list of events.
-/

namespace VisionX

/-- Observable side effects of the program, in the order they occur. -/
inductive Event where
  /-- a console `print` of the given text -/
  | print (s : String)
  /-- audio playback of the given text (`engine.say` + `runAndWait`) -/
  | say (s : String)
  /-- construction of the `ObstacleDetector` (`genai.GenerativeModel`) -/
  | constructDetector
  /-- the camera-open attempt (`cv2.VideoCapture`) -/
  | cameraOpen
  /-- one frame-read attempt (`self.cap.read()`) -/
  | frameRead
  /-- one remote inference call (`self.model.generate_content`) -/
  | remoteCall
  /-- one display update (`cv2.imshow`) -/
  | render
  /-- release of the camera handle (`self.cap.release()`) -/
  | releaseCamera
  /-- closing the display windows (`cv2.destroyAllWindows()`) -/
  | destroyWindows
  deriving DecidableEq, Repr

/-- The text-to-speech wrapper. `enabled` mirrors `self.enabled`; `playFail`
is the playback oracle: `playFail t = some e` means the engine raises an
exception with message `e` when asked to play `t`, `none` means playback
succeeds. -/
structure Speaker where
  enabled : Bool
  playFail : String → Option String

/-- `Speaker.__init__`: when the engine constructor succeeds, `enabled` is set;
when it throws (message `err`), the failure is caught, a warning is printed and
`enabled` is cleared. Returns the constructed speaker and the emitted events. -/
def Speaker.init (ok : Bool) (err : String) (playFail : String → Option String) :
    Speaker × List Event :=
  if ok then
    (⟨true, playFail⟩, [])
  else
    (⟨false, playFail⟩, [Event.print ("⚠️ TTS initialization failed: " ++ err)])

/-- `Speaker.speak(text, print_text=True)`: echoes `AI: <text>` to the console
when `print_text` is set, then, if the engine is enabled, attempts playback;
a playback exception is caught and logged (`TTS Error: <e>`). -/
def Speaker.speak (sp : Speaker) (text : String) (print_text : Bool := true) :
    List Event :=
  (if print_text then [Event.print ("AI: " ++ text)] else []) ++
    (if sp.enabled then
      match sp.playFail text with
      | none => [Event.say text]
      | some e => [Event.print ("TTS Error: " ++ e)]
    else [])

/-- A camera frame. `encoded` models `cv2.imencode('.jpg', frame)`:
`some bytes` when encoding succeeds, `none` when it fails. -/
structure Frame where
  encoded : Option (List Nat)
  deriving DecidableEq, Repr

/-- A remote model response. `text` models the `text` attribute:
`none` when the attribute is absent (or `None`), `some t` the attribute's
string value. -/
structure RemoteResponse where
  text : Option String
  deriving DecidableEq, Repr

/-- The remote inference oracle: what `generate_content` does on a given
frame's payload — either returns a response or raises with a message. -/
def RemoteOracle : Type := Frame → Except String RemoteResponse

namespace ObstacleDetector

/-- `ObstacleDetector.analyze_frame`: encodes the frame (raising
`ValueError("Failed to encode frame")` when `imencode` fails, with no remote
call), otherwise issues one remote inference call and returns the response
text stripped of surrounding whitespace when truthy, or the fixed sentinel
`"No clear response from AI."` otherwise. The result pairs the emitted events
with the returned string or the propagated exception message. -/
def analyze_frame (remote : RemoteOracle) (frame : Frame) :
    List Event × Except String String :=
  match frame.encoded with
  | none => ([], Except.error "Failed to encode frame")
  | some _bytes =>
    match remote frame with
    | Except.error e => ([Event.remoteCall], Except.error e)
    | Except.ok r =>
      ([Event.remoteCall],
        Except.ok (match r.text with
          | some t => if t = "" then "No clear response from AI." else t.trim
          | none => "No clear response from AI."))

end ObstacleDetector

/-- The external inputs consumed by one iteration of the polling loop. -/
structure IterInput where
  /-- a `KeyboardInterrupt` is delivered during this iteration -/
  interrupt : Bool
  /-- `ret` of `self.cap.read()` -/
  readOk : Bool
  /-- the frame returned by the read -/
  frame : Frame
  /-- `time.time()` at this iteration -/
  time : Rat
  /-- the raw value returned by `cv2.waitKey(1)` -/
  key : Nat
  deriving DecidableEq, Repr

/-- How (or whether) a run of the loop ended. -/
inductive ExitReason where
  /-- `start` returned because the camera could not be opened -/
  | cameraFail
  /-- the loop broke because a frame read failed -/
  | readFail
  /-- the loop broke on the quit key -/
  | quitKey
  /-- a `KeyboardInterrupt` was caught -/
  | interrupted
  /-- the supplied input stream ran out with the loop still live -/
  | stillRunning
  deriving DecidableEq, Repr

/-- The observable outcome of a run: its events, the times at which analysis
dispatches (calls into `_analyze_and_speak`) were initiated, and how it
ended. -/
structure LoopResult where
  events : List Event
  dispatches : List Rat
  exit : ExitReason
  deriving Repr

namespace AssistiveAI

/-- `AssistiveAI._analyze_and_speak`: prints the analyzing banner, runs
`analyze_frame`, speaks its result; any exception is caught, logged as a
warning and replaced by the fixed spoken error phrase. Total: it always
returns an event list, never an exception. -/
def analyze_and_speak (remote : RemoteOracle) (sp : Speaker) (frame : Frame) :
    List Event :=
  let r := ObstacleDetector.analyze_frame remote frame
  Event.print "\n[ANALYZING] Processing frame..." ::
    (r.1 ++
      match r.2 with
      | Except.ok result => sp.speak result
      | Except.error e =>
        Event.print ("[WARNING] Analysis error: " ++ e) ::
          sp.speak "Error analyzing the scene.")

/-- The 50-character `"=" * 50` separator line. -/
def sepLine : String := String.mk (List.replicate 50 '=')

/-- `AssistiveAI.cleanup`: releases the camera when `self.cap` is set, closes
the display windows, prints the shutdown banner. -/
def cleanup (capSet : Bool) : List Event :=
  (if capSet then [Event.releaseCamera] else []) ++
    [Event.destroyWindows,
     Event.print ("\n" ++ sepLine),
     Event.print "SYSTEM SHUTDOWN COMPLETE",
     Event.print sepLine]

/-- The `while True` body of `AssistiveAI.start`, consuming one `IterInput`
per iteration; `last` is `last_analysis`. Mirrors the source order: read the
frame (break on failure), dispatch analysis when
`current_time - last_analysis >= interval` (resetting the baseline to
`current_time` before the dispatch), render, then break on the quit key
(`waitKey(1) & 0xFF == ord('q')`). A delivered `KeyboardInterrupt` is caught
outside the loop. -/
def loopRun (interval : Rat) (remote : RemoteOracle) (sp : Speaker) :
    Rat → List IterInput → LoopResult
  | _, [] => ⟨[], [], ExitReason.stillRunning⟩
  | last, inp :: rest =>
    if inp.interrupt then
      ⟨Event.print "\n[INTERRUPTED] User stopped the system" ::
        sp.speak "System interrupted.", [], ExitReason.interrupted⟩
    else if inp.readOk = false then
      ⟨[Event.frameRead, Event.print "[ERROR] Could not read frame."], [],
        ExitReason.readFail⟩
    else
      let aEv : List Event :=
        if interval ≤ inp.time - last then analyze_and_speak remote sp inp.frame
        else []
      let aTimes : List Rat :=
        if interval ≤ inp.time - last then [inp.time] else []
      let last' : Rat :=
        if interval ≤ inp.time - last then inp.time else last
      if inp.key &&& 255 = 113 then
        ⟨Event.frameRead :: aEv ++ Event.render ::
          sp.speak "Shutting down assistive AI system.", aTimes,
          ExitReason.quitKey⟩
      else
        let r := loopRun interval remote sp last' rest
        ⟨Event.frameRead :: aEv ++ Event.render :: r.events,
          aTimes ++ r.dispatches, r.exit⟩

/-- `AssistiveAI.start`: opens the camera and returns at once (no cleanup, no
loop) when it cannot be opened; otherwise prints the startup banner, speaks
the activation phrase, runs the loop from `last_analysis = 0`, and — via the
`try/finally` — appends `cleanup` whenever the loop body exits (read failure,
quit key, or interruption; interruption additionally prints and speaks its
notices inside the `except` clause, modelled inside `loopRun`).
`startBanner` is the startup banner printed on a successful camera open. -/
def startBanner (interval : Rat) : List Event :=
  [Event.print sepLine,
   Event.print "ASSISTIVE AI SYSTEM - ACTIVE",
   Event.print sepLine,
   Event.print ("Analyzing frames every " ++ toString interval ++ " seconds"),
   Event.print "Press \x27Q\x27 to quit\n"]

/-- `AssistiveAI.start`, assembled from the pieces above: camera-open check
(returning at once, with no cleanup, when it fails), startup banner,
activation phrase, the loop from `last_analysis = 0`, and — via the
`try/finally` — the `cleanup` suffix whenever the loop body exits. -/
def start (cameraOk : Bool) (interval : Rat) (remote : RemoteOracle)
    (sp : Speaker) (inputs : List IterInput) : LoopResult :=
  if cameraOk then
    let r := loopRun interval remote sp 0 inputs
    ⟨Event.cameraOpen :: startBanner interval ++
        sp.speak "Assistive AI system activated." ++ r.events ++
        (if r.exit = ExitReason.stillRunning then [] else cleanup true),
      r.dispatches, r.exit⟩
  else
    ⟨[Event.cameraOpen, Event.print "[ERROR] Could not open webcam."], [],
      ExitReason.cameraFail⟩

end AssistiveAI

/-- Python truthiness of an `os.getenv` result: `None` and the empty string
are falsy. -/
def truthy : Option String → Bool
  | none => false
  | some s => !(s = "")

/-- Python `a or b`: `a` when truthy, else `b`. -/
def pyOr (a b : Option String) : Option String :=
  if truthy a then a else b

/-- `API_KEY = os.getenv("GEMINI_API_KEY") or os.getenv("GOOGLE_API_KEY") or
os.getenv("OPENAI_API_KEY")`, with `g₁ g₂ g₃` the three environment values. -/
def API_KEY (g₁ g₂ g₃ : Option String) : Option String :=
  pyOr g₁ (pyOr g₂ g₃)

/-- The message of the `ValueError` raised when no credential is found. -/
def missingKeyMessage : String :=
  "❌ GEMINI_API_KEY not found. Set GEMINI_API_KEY in your environment or .env file.\nExample: GEMINI_API_KEY=your_key_here\n"

/-- The outcome of running the whole program (module import + `main()`). -/
structure ProgramResult where
  /-- the events emitted, in order -/
  events : List Event
  /-- `some msg` when the process raised at startup with that message -/
  raised : Option String
  /-- the credential passed to `genai.configure`, when startup succeeded -/
  usedKey : Option String
  deriving Repr

/-- The whole program: the module-level credential check (raising before any
object is constructed when the chained lookup is falsy), then `main()` —
`AssistiveAI.__init__` constructs the `Speaker` and the `ObstacleDetector`,
then `start` runs. -/
def runProgram (g₁ g₂ g₃ : Option String) (ttsOk : Bool) (ttsErr : String)
    (playFail : String → Option String) (cameraOk : Bool) (interval : Rat)
    (remote : RemoteOracle) (inputs : List IterInput) : ProgramResult :=
  let key := API_KEY g₁ g₂ g₃
  if truthy key then
    let si := Speaker.init ttsOk ttsErr playFail
    let r := AssistiveAI.start cameraOk interval remote si.1 inputs
    ⟨si.2 ++ Event.constructDetector :: r.events, none, key⟩
  else
    ⟨[], some missingKeyMessage, none⟩

/-! ## Concrete instances used by witnesses and counterexamples -/

/-- A remote oracle whose response carries an empty `text` attribute. -/
def remoteEmptyText : RemoteOracle := fun _ => Except.ok ⟨some ""⟩

/-- A remote oracle that always raises with message `"network down"`. -/
def remoteBoom : RemoteOracle := fun _ => Except.error "network down"

/-- Four frames one second apart (times 1, 2, 4, 5), quit key on the last. -/
def sampleInputs : List IterInput :=
  [⟨false, true, ⟨some []⟩, 1, 0⟩, ⟨false, true, ⟨some []⟩, 2, 0⟩,
   ⟨false, true, ⟨some []⟩, 4, 0⟩, ⟨false, true, ⟨some []⟩, 5, 113⟩]

/-- A single iteration whose frame read fails. -/
def readFailInputs : List IterInput := [⟨false, false, ⟨some []⟩, 1, 0⟩]

/-- A remote oracle whose response carries the text `" hi "`. -/
def remotePadded : RemoteOracle := fun _ => Except.ok ⟨some " hi "⟩

/-- A playback oracle that always raises with message `"boom"`. -/
def pfBoom : String → Option String := fun _ => some "boom"

/-- A playback oracle whose playback always succeeds. -/
def pfOk : String → Option String := fun _ => none

/-- A frame that encodes successfully (to an empty byte list). -/
def frameOk : Frame := ⟨some []⟩

/-- The two events that release the controller's shared resources. -/
def isResourceRelease : Event → Bool
  | Event.releaseCamera => true
  | Event.destroyWindows => true
  | _ => false

/-! ## Helper lemmas -/

/-- A `speak` call never releases a resource. -/
theorem speak_no_release (sp : Speaker) (t : String) (p : Bool) :
    ∀ e ∈ Speaker.speak sp t p, isResourceRelease e = false := by
  intro e he
  simp only [Speaker.speak] at he
  rcases List.mem_append.mp he with h | h
  · cases p with
    | false => simp at h
    | true => simp at h; subst h; rfl
  · cases hen : sp.enabled with
    | false => rw [hen] at h; simp at h
    | true =>
      rw [hen] at h
      cases hpf : sp.playFail t with
      | none => rw [hpf] at h; simp at h; subst h; rfl
      | some e2 => rw [hpf] at h; simp at h; subst h; rfl

/-- The events of `analyze_frame` are at most one remote call. -/
theorem analyze_frame_events (remote : RemoteOracle) (f : Frame) :
    ∀ e ∈ (ObstacleDetector.analyze_frame remote f).1, e = Event.remoteCall := by
  intro e he
  unfold ObstacleDetector.analyze_frame at he
  cases hef : f.encoded with
  | none => rw [hef] at he; simp at he
  | some bs =>
    rw [hef] at he
    cases hre : remote f with
    | error e2 => rw [hre] at he; simpa using he
    | ok r => rw [hre] at he; simpa using he

/-- An analysis dispatch never releases a resource. -/
theorem analyze_and_speak_no_release (remote : RemoteOracle) (sp : Speaker)
    (f : Frame) :
    ∀ e ∈ AssistiveAI.analyze_and_speak remote sp f,
      isResourceRelease e = false := by
  intro e he
  simp only [AssistiveAI.analyze_and_speak] at he
  rcases List.mem_cons.mp he with h | h
  · subst h; rfl
  · rcases List.mem_append.mp h with h | h
    · rw [analyze_frame_events remote f e h]; rfl
    · cases hres : (ObstacleDetector.analyze_frame remote f).2 with
      | ok result =>
        rw [hres] at h
        exact speak_no_release sp result true e h
      | error e2 =>
        rw [hres] at h
        rcases List.mem_cons.mp h with h | h
        · subst h; rfl
        · exact speak_no_release sp _ true e h

/-- The loop body never releases a resource: `releaseCamera` and
`destroyWindows` can only come from `cleanup`. -/
theorem loopRun_no_release (interval : Rat) (remote : RemoteOracle)
    (sp : Speaker) (last : Rat) (inputs : List IterInput) :
    ∀ e ∈ (AssistiveAI.loopRun interval remote sp last inputs).events,
      isResourceRelease e = false := by
  induction inputs generalizing last with
  | nil => intro e he; simp [AssistiveAI.loopRun] at he
  | cons inp rest ih =>
    intro e he
    simp only [AssistiveAI.loopRun] at he
    by_cases hi : inp.interrupt = true
    · rw [if_pos hi] at he
      rcases List.mem_cons.mp he with h | h
      · subst h; rfl
      · exact speak_no_release sp _ true e h
    · rw [if_neg hi] at he
      by_cases hr : inp.readOk = false
      · rw [if_pos hr] at he
        rcases List.mem_cons.mp he with h | h
        · subst h; rfl
        · simp at h; subst h; rfl
      · rw [if_neg hr] at he
        have haEv : ∀ e2 ∈ (if interval ≤ inp.time - last then
            AssistiveAI.analyze_and_speak remote sp inp.frame else []),
            isResourceRelease e2 = false := by
          intro e2 he2
          by_cases hd : interval ≤ inp.time - last
          · rw [if_pos hd] at he2
            exact analyze_and_speak_no_release remote sp inp.frame e2 he2
          · rw [if_neg hd] at he2; simp at he2
        by_cases hq : inp.key &&& 255 = 113
        · rw [if_pos hq] at he
          rcases List.mem_cons.mp he with h | h
          · subst h; rfl
          · rcases List.mem_append.mp h with h | h
            · exact haEv e h
            · rcases List.mem_cons.mp h with h | h
              · subst h; rfl
              · exact speak_no_release sp _ true e h
        · rw [if_neg hq] at he
          rcases List.mem_cons.mp he with h | h
          · subst h; rfl
          · rcases List.mem_append.mp h with h | h
            · exact haEv e h
            · rcases List.mem_cons.mp h with h | h
              · subst h; rfl
              · exact ih _ e h

/-- The spacing invariant of the rate limiter: from baseline `last`, the
dispatch times of a loop run are chained at least `interval` apart, and the
first one is at least `last + interval`. -/
theorem loopRun_dispatch_spacing (interval : Rat) (remote : RemoteOracle)
    (sp : Speaker) (last : Rat) (inputs : List IterInput) :
    List.Chain' (fun a b => a + interval ≤ b)
      (AssistiveAI.loopRun interval remote sp last inputs).dispatches
  ∧ ∀ t, ((AssistiveAI.loopRun interval remote sp last inputs).dispatches).head?
        = some t → last + interval ≤ t := by
  induction inputs generalizing last with
  | nil =>
    exact ⟨List.chain'_nil, fun t ht => by simp [AssistiveAI.loopRun] at ht⟩
  | cons inp rest ih =>
    by_cases hi : inp.interrupt = true
    · simp only [AssistiveAI.loopRun, if_pos hi]
      exact ⟨List.chain'_nil, fun t ht => by simp at ht⟩
    · by_cases hr : inp.readOk = false
      · simp only [AssistiveAI.loopRun, if_neg hi, if_pos hr]
        exact ⟨List.chain'_nil, fun t ht => by simp at ht⟩
      · by_cases hd : interval ≤ inp.time - last
        · have hle : last + interval ≤ inp.time := by linarith
          by_cases hq : inp.key &&& 255 = 113
          · simp only [AssistiveAI.loopRun, if_neg hi, if_neg hr, if_pos hq,
              if_pos hd]
            refine ⟨List.chain'_singleton _, ?_⟩
            intro t ht
            simp only [List.head?_cons, Option.some.injEq] at ht
            subst ht
            exact hle
          · have ihh := ih inp.time
            simp only [AssistiveAI.loopRun, if_neg hi, if_neg hr, if_neg hq,
              if_pos hd, List.singleton_append]
            constructor
            · refine List.chain'_cons'.mpr ⟨?_, ihh.1⟩
              intro y hy
              exact ihh.2 y (Option.mem_def.mp hy)
            · intro t ht
              simp only [List.head?_cons, Option.some.injEq] at ht
              subst ht
              exact hle
        · by_cases hq : inp.key &&& 255 = 113
          · simp only [AssistiveAI.loopRun, if_neg hi, if_neg hr, if_pos hq,
              if_neg hd]
            exact ⟨List.chain'_nil, fun t ht => by simp at ht⟩
          · have ihh := ih last
            simp only [AssistiveAI.loopRun, if_neg hi, if_neg hr, if_neg hq,
              if_neg hd, List.nil_append]
            exact ⟨ihh.1, ihh.2⟩

/-- The loop's exit reason and dispatch times do not depend on the remote
oracle: analysis outcomes never decide control flow. -/
theorem loopRun_remote_independent (interval : Rat) (r₁ r₂ : RemoteOracle)
    (sp : Speaker) (last : Rat) (inputs : List IterInput) :
    (AssistiveAI.loopRun interval r₁ sp last inputs).exit
      = (AssistiveAI.loopRun interval r₂ sp last inputs).exit
  ∧ (AssistiveAI.loopRun interval r₁ sp last inputs).dispatches
      = (AssistiveAI.loopRun interval r₂ sp last inputs).dispatches := by
  induction inputs generalizing last with
  | nil => exact ⟨rfl, rfl⟩
  | cons inp rest ih =>
    by_cases hi : inp.interrupt = true
    · simp only [AssistiveAI.loopRun, if_pos hi]
      exact ⟨trivial, trivial⟩
    · by_cases hr : inp.readOk = false
      · simp only [AssistiveAI.loopRun, if_neg hi, if_pos hr]
        exact ⟨trivial, trivial⟩
      · by_cases hq : inp.key &&& 255 = 113
        · simp only [AssistiveAI.loopRun, if_neg hi, if_neg hr, if_pos hq]
          exact ⟨trivial, trivial⟩
        · by_cases hd : interval ≤ inp.time - last
          · have ihh := ih inp.time
            simp only [AssistiveAI.loopRun, if_neg hi, if_neg hr, if_neg hq,
              if_pos hd]
            exact ⟨ihh.1, by rw [ihh.2]⟩
          · have ihh := ih last
            simp only [AssistiveAI.loopRun, if_neg hi, if_neg hr, if_neg hq,
              if_neg hd]
            exact ⟨ihh.1, by rw [ihh.2]⟩

/-! ## Claim theorems -/

/-- **C3 counterexample.** On a frame that encodes successfully and a remote
response whose `text` is the empty string, `analyze_frame` returns the
sentinel `"No clear response from AI."` — not the string
`"no clear response from the system"` that the claim names. -/
theorem analyze_frame_sentinel_counterexample :
    (ObstacleDetector.analyze_frame remoteEmptyText frameOk).2
      = Except.ok "No clear response from AI."
  ∧ (ObstacleDetector.analyze_frame remoteEmptyText frameOk).2
      ≠ Except.ok "no clear response from the system" := by
  have he : (ObstacleDetector.analyze_frame remoteEmptyText frameOk).2
      = Except.ok "No clear response from AI." := rfl
  refine ⟨he, ?_⟩
  intro h
  rw [he] at h
  exact absurd (Except.ok.inj h) (by decide)

/-- **C3 (amended).** For every frame that encodes successfully and every
remote response delivered without an exception: when the response text is
present and non-empty, `analyze_frame` returns it trimmed of surrounding
whitespace; when the text is absent or empty it returns the fixed sentinel
`"No clear response from AI."`; and in no such case does it raise. -/
theorem analyze_frame_response_text (remote : RemoteOracle) (frame : Frame)
    (bs : List Nat) (r : RemoteResponse)
    (henc : frame.encoded = some bs) (hr : remote frame = Except.ok r) :
    (∀ t, r.text = some t → t ≠ "" →
        (ObstacleDetector.analyze_frame remote frame).2 = Except.ok t.trim)
  ∧ (r.text = none ∨ r.text = some "" →
      (ObstacleDetector.analyze_frame remote frame).2
        = Except.ok "No clear response from AI.")
  ∧ ∀ e, (ObstacleDetector.analyze_frame remote frame).2 ≠ Except.error e := by
  refine ⟨?_, ?_, ?_⟩
  · intro t ht hne
    simp [ObstacleDetector.analyze_frame, henc, hr, ht, hne]
  · rintro (h | h) <;> simp [ObstacleDetector.analyze_frame, henc, hr, h]
  · intro e
    cases hrt : r.text with
    | none => simp [ObstacleDetector.analyze_frame, henc, hr, hrt]
    | some t =>
      simp only [ObstacleDetector.analyze_frame, henc, hr, hrt]
      split <;> simp

/-- Witness for `analyze_frame_response_text` at a concrete frame and a
concrete remote response with text `" hi "`. -/
theorem analyze_frame_response_text_witness :
    frameOk.encoded = some []
  ∧ remotePadded frameOk = Except.ok ⟨some " hi "⟩
  ∧ ((∀ t, (RemoteResponse.mk (some " hi ")).text = some t → t ≠ "" →
        (ObstacleDetector.analyze_frame remotePadded frameOk).2 = Except.ok t.trim)
    ∧ ((RemoteResponse.mk (some " hi ")).text = none
          ∨ (RemoteResponse.mk (some " hi ")).text = some "" →
        (ObstacleDetector.analyze_frame remotePadded frameOk).2
          = Except.ok "No clear response from AI.")
    ∧ ∀ e, (ObstacleDetector.analyze_frame remotePadded frameOk).2
        ≠ Except.error e) :=
  ⟨rfl, rfl, analyze_frame_response_text remotePadded frameOk [] ⟨some " hi "⟩ rfl rfl⟩

/-- **C4 counterexample.** The message of the error raised when encoding
fails is `"Failed to encode frame"` (capital F), not the
`"failed to encode frame"` the claim quotes. -/
theorem encode_failure_message_counterexample :
    (ObstacleDetector.analyze_frame remoteEmptyText ⟨none⟩).2
      = Except.error "Failed to encode frame"
  ∧ (ObstacleDetector.analyze_frame remoteEmptyText ⟨none⟩).2
      ≠ Except.error "failed to encode frame" := by
  have he : (ObstacleDetector.analyze_frame remoteEmptyText ⟨none⟩).2
      = Except.error "Failed to encode frame" := rfl
  refine ⟨he, ?_⟩
  intro h
  rw [he] at h
  exact absurd (Except.error.inj h) (by decide)

/-- **C4 (amended).** For every frame that fails to encode, `analyze_frame`
raises a `ValueError` with message `"Failed to encode frame"`, returns it to
the caller, and emits no remote inference call. -/
theorem analyze_frame_encode_failure (remote : RemoteOracle) (frame : Frame)
    (h : frame.encoded = none) :
    ObstacleDetector.analyze_frame remote frame
      = ([], Except.error "Failed to encode frame")
  ∧ Event.remoteCall ∉ (ObstacleDetector.analyze_frame remote frame).1 := by
  have he : ObstacleDetector.analyze_frame remote frame
      = ([], Except.error "Failed to encode frame") := by
    simp [ObstacleDetector.analyze_frame, h]
  exact ⟨he, by rw [he]; simp⟩

/-- Witness for `analyze_frame_encode_failure` at a concrete frame whose
encoding fails. -/
theorem analyze_frame_encode_failure_witness :
    (Frame.mk none).encoded = none
  ∧ (ObstacleDetector.analyze_frame remotePadded ⟨none⟩
        = ([], Except.error "Failed to encode frame")
    ∧ Event.remoteCall ∉ (ObstacleDetector.analyze_frame remotePadded ⟨none⟩).1) :=
  ⟨rfl, analyze_frame_encode_failure remotePadded ⟨none⟩ rfl⟩

/-- **C7.** When the speech engine's construction throws, the speaker is
constructed disabled (after a logged warning); every subsequent `speak` call
prints the text prefixed `AI: `, emits no playback, and raises nothing; and
when the engine is enabled but playback throws, the failure is caught and
logged after the echo, without propagating. -/
theorem speaker_degraded_mode (err t e : String) (pf : String → Option String)
    (hpf : pf t = some e) :
    (Speaker.init false err pf).1.enabled = false
  ∧ (Speaker.init false err pf).2
      = [Event.print ("⚠️ TTS initialization failed: " ++ err)]
  ∧ Speaker.speak (Speaker.init false err pf).1 t = [Event.print ("AI: " ++ t)]
  ∧ (∀ s, Event.say s ∉ Speaker.speak (Speaker.init false err pf).1 t)
  ∧ Speaker.speak ⟨true, pf⟩ t
      = [Event.print ("AI: " ++ t), Event.print ("TTS Error: " ++ e)] := by
  refine ⟨rfl, rfl, rfl, ?_, ?_⟩
  · intro s
    simp [Speaker.init, Speaker.speak]
  · simp [Speaker.speak, hpf]

/-- Witness for `speaker_degraded_mode` with the phrase
`"Clear path ahead"` and an always-failing playback oracle. -/
theorem speaker_degraded_mode_witness :
    pfBoom "Clear path ahead" = some "boom"
  ∧ ((Speaker.init false "no audio device" pfBoom).1.enabled = false
    ∧ (Speaker.init false "no audio device" pfBoom).2
        = [Event.print ("⚠️ TTS initialization failed: " ++ "no audio device")]
    ∧ Speaker.speak (Speaker.init false "no audio device" pfBoom).1
        "Clear path ahead" = [Event.print ("AI: " ++ "Clear path ahead")]
    ∧ (∀ s, Event.say s ∉ Speaker.speak (Speaker.init false "no audio device" pfBoom).1
          "Clear path ahead")
    ∧ Speaker.speak ⟨true, pfBoom⟩ "Clear path ahead"
        = [Event.print ("AI: " ++ "Clear path ahead"),
           Event.print ("TTS Error: " ++ "boom")]) :=
  ⟨rfl, speaker_degraded_mode "no audio device" "Clear path ahead" "boom" pfBoom rfl⟩

/-- **C8.** When the camera cannot be opened, `start` prints the error and
returns at once: its whole trace is the open attempt and the error line, it
never reads a frame, and it dispatches no analysis. -/
theorem start_camera_open_failure (interval : Rat) (remote : RemoteOracle)
    (sp : Speaker) (inputs : List IterInput) :
    AssistiveAI.start false interval remote sp inputs
      = ⟨[Event.cameraOpen, Event.print "[ERROR] Could not open webcam."], [],
          ExitReason.cameraFail⟩
  ∧ Event.frameRead ∉ (AssistiveAI.start false interval remote sp inputs).events
  ∧ (AssistiveAI.start false interval remote sp inputs).dispatches = [] := by
  have h : AssistiveAI.start false interval remote sp inputs
      = ⟨[Event.cameraOpen, Event.print "[ERROR] Could not open webcam."], [],
          ExitReason.cameraFail⟩ := rfl
  refine ⟨h, ?_, ?_⟩
  · rw [h]; decide
  · rw [h]

/-- **C10 counterexample.** A call `speak(text, print_text=False)` on an
enabled speaker whose playback raises still prints a `TTS Error:` line, so
it is not the case that nothing is printed at all. -/
theorem speak_silent_flag_counterexample :
    Speaker.speak ⟨true, pfBoom⟩ "hello" false
      = [Event.print "TTS Error: boom"]
  ∧ Speaker.speak ⟨true, pfBoom⟩ "hello" false ≠ [] := by
  exact ⟨rfl, by decide⟩

/-- **C10 (amended).** `speak`'s `print_text` flag defaults to `True`;
passing `True` prepends exactly the `AI: `-prefixed echo to what
`print_text=False` produces; and with `print_text=False` the echo is
suppressed — the only print that can still occur is the `TTS Error:` log of
a caught playback failure. -/
theorem speak_print_text_flag (sp : Speaker) (t : String) :
    Speaker.speak sp t = Speaker.speak sp t true
  ∧ Speaker.speak sp t true = Event.print ("AI: " ++ t) :: Speaker.speak sp t false
  ∧ (∀ s, Event.print s ∈ Speaker.speak sp t false →
      ∃ e, sp.playFail t = some e ∧ s = "TTS Error: " ++ e) := by
  refine ⟨rfl, by simp [Speaker.speak], ?_⟩
  intro s hs
  cases hen : sp.enabled with
  | false => simp [Speaker.speak, hen] at hs
  | true =>
    cases hpf : sp.playFail t with
    | none => simp [Speaker.speak, hen, hpf] at hs
    | some e =>
      simp [Speaker.speak, hen, hpf] at hs
      exact ⟨e, rfl, hs⟩

/-- Witness for `speak_print_text_flag` on an enabled speaker with an
always-failing playback oracle. -/
theorem speak_print_text_flag_witness :
    Speaker.speak ⟨true, pfBoom⟩ "hi" = Speaker.speak ⟨true, pfBoom⟩ "hi" true
  ∧ Speaker.speak ⟨true, pfBoom⟩ "hi" true
      = Event.print ("AI: " ++ "hi") :: Speaker.speak ⟨true, pfBoom⟩ "hi" false
  ∧ (∀ s, Event.print s ∈ Speaker.speak ⟨true, pfBoom⟩ "hi" false →
      ∃ e, pfBoom "hi" = some e ∧ s = "TTS Error: " ++ e) :=
  speak_print_text_flag ⟨true, pfBoom⟩ "hi"

/-- **C1.** For every configured interval `I > 0`, over any run of `start`
the analysis dispatch initiation times are at least `I` apart, each measured
from the previous dispatch's start (the `current_time` captured before the
dispatch), whatever frames are read in between and whatever the analyses and
playback do. -/
theorem dispatch_interval_spacing (cameraOk : Bool) (interval : Rat)
    (remote : RemoteOracle) (sp : Speaker) (inputs : List IterInput)
    (_hI : 0 < interval) :
    List.Chain' (fun a b => a + interval ≤ b)
      (AssistiveAI.start cameraOk interval remote sp inputs).dispatches := by
  cases cameraOk with
  | false => exact List.chain'_nil
  | true => exact (loopRun_dispatch_spacing interval remote sp 0 inputs).1

/-- Witness for `dispatch_interval_spacing`: interval 3, frames at times
1, 2, 4, 5 — the run dispatches at 4 only. -/
theorem dispatch_interval_spacing_witness :
    (0 : Rat) < 3
  ∧ List.Chain' (fun a b => a + 3 ≤ b)
      (AssistiveAI.start true 3 remotePadded ⟨false, pfOk⟩
        sampleInputs).dispatches :=
  ⟨by norm_num,
   dispatch_interval_spacing true 3 remotePadded ⟨false, pfOk⟩ sampleInputs
     (by norm_num)⟩

/-- **C5.** When an analysis call raises (encoding error, network error, or
any other exception), `_analyze_and_speak` catches it at its boundary, logs
the warning and speaks the fixed error phrase; and the session's fate never
depends on analysis outcomes — runs under any two remote oracles exit for
the same reason. -/
theorem analysis_failure_contained (remote : RemoteOracle) (sp : Speaker)
    (frame : Frame) (e : String)
    (herr : (ObstacleDetector.analyze_frame remote frame).2 = Except.error e) :
    AssistiveAI.analyze_and_speak remote sp frame
      = Event.print "\n[ANALYZING] Processing frame..." ::
          ((ObstacleDetector.analyze_frame remote frame).1 ++
            Event.print ("[WARNING] Analysis error: " ++ e) ::
              sp.speak "Error analyzing the scene.")
  ∧ ∀ (r₁ r₂ : RemoteOracle) (cameraOk : Bool) (i : Rat)
      (inputs : List IterInput),
      (AssistiveAI.start cameraOk i r₁ sp inputs).exit
        = (AssistiveAI.start cameraOk i r₂ sp inputs).exit := by
  constructor
  · simp only [AssistiveAI.analyze_and_speak, herr]
  · intro r₁ r₂ cameraOk i inputs
    cases cameraOk with
    | false => rfl
    | true => exact (loopRun_remote_independent i r₁ r₂ sp 0 inputs).1

/-- Witness for `analysis_failure_contained` under a remote oracle that
always raises `"network down"`. -/
theorem analysis_failure_contained_witness :
    (ObstacleDetector.analyze_frame remoteBoom frameOk).2
        = Except.error "network down"
  ∧ (AssistiveAI.analyze_and_speak remoteBoom ⟨false, pfOk⟩ frameOk
        = Event.print "\n[ANALYZING] Processing frame..." ::
            ((ObstacleDetector.analyze_frame remoteBoom frameOk).1 ++
              Event.print ("[WARNING] Analysis error: " ++ "network down") ::
                Speaker.speak ⟨false, pfOk⟩ "Error analyzing the scene.")
    ∧ ∀ (r₁ r₂ : RemoteOracle) (cameraOk : Bool) (i : Rat)
        (inputs : List IterInput),
        (AssistiveAI.start cameraOk i r₁ ⟨false, pfOk⟩ inputs).exit
          = (AssistiveAI.start cameraOk i r₂ ⟨false, pfOk⟩ inputs).exit) :=
  ⟨rfl,
   analysis_failure_contained remoteBoom ⟨false, pfOk⟩ frameOk "network down"
     rfl⟩

set_option maxRecDepth 8192 in
/-- **C9.** For ASCII key codes, the quit test `waitKey(1) & 0xFF == ord('q')`
accepts exactly code 113 — the lowercase `q` (code 113), not the uppercase
`Q` (code 81) — and an iteration that observes it after rendering speaks the
shutdown notice and leaves the loop with the quit exit reason. -/
theorem quit_signal_behavior (interval : Rat) (remote : RemoteOracle)
    (sp : Speaker) (last : Rat) (inp : IterInput) (rest : List IterInput)
    (k : Nat) (hk : k < 256) (hi : inp.interrupt = false)
    (hr : inp.readOk = true) (hq : inp.key = 113) :
    ((k &&& 255 = 113) ↔ k = 113)
  ∧ ('q').toNat = 113
  ∧ ('Q').toNat = 81
  ∧ (AssistiveAI.loopRun interval remote sp last (inp :: rest)).exit
      = ExitReason.quitKey
  ∧ ∃ pre, (AssistiveAI.loopRun interval remote sp last (inp :: rest)).events
      = pre ++ sp.speak "Shutting down assistive AI system." := by
  have hall : ∀ m : Nat, m < 256 → ((m &&& 255 = 113) ↔ m = 113) := by decide
  have hi' : ¬ inp.interrupt = true := by simp [hi]
  have hr' : ¬ inp.readOk = false := by simp [hr]
  have hq' : inp.key &&& 255 = 113 := by rw [hq]; decide
  refine ⟨hall k hk, by decide, by decide, ?_, ?_⟩
  · by_cases hd : interval ≤ inp.time - last
    · simp only [AssistiveAI.loopRun, if_neg hi', if_neg hr', if_pos hq',
        if_pos hd]
    · simp only [AssistiveAI.loopRun, if_neg hi', if_neg hr', if_pos hq',
        if_neg hd]
  · by_cases hd : interval ≤ inp.time - last
    · refine ⟨Event.frameRead ::
        AssistiveAI.analyze_and_speak remote sp inp.frame ++ [Event.render],
        ?_⟩
      simp only [AssistiveAI.loopRun, if_neg hi', if_neg hr', if_pos hq',
        if_pos hd]
      simp
    · refine ⟨[Event.frameRead, Event.render], ?_⟩
      simp only [AssistiveAI.loopRun, if_neg hi', if_neg hr', if_pos hq',
        if_neg hd]
      simp

/-- Witness for `quit_signal_behavior`: key code 81 (uppercase `Q`) for the
case-sensitivity part, against an iteration pressing 113. -/
theorem quit_signal_behavior_witness :
    (81 : Nat) < 256
  ∧ (IterInput.mk false true ⟨some []⟩ 1 113).interrupt = false
  ∧ (IterInput.mk false true ⟨some []⟩ 1 113).readOk = true
  ∧ (IterInput.mk false true ⟨some []⟩ 1 113).key = 113
  ∧ ((((81 : Nat) &&& 255 = 113) ↔ (81 : Nat) = 113)
    ∧ ('q').toNat = 113
    ∧ ('Q').toNat = 81
    ∧ (AssistiveAI.loopRun 3 remotePadded ⟨false, pfOk⟩ 0
        [IterInput.mk false true ⟨some []⟩ 1 113]).exit = ExitReason.quitKey
    ∧ ∃ pre, (AssistiveAI.loopRun 3 remotePadded ⟨false, pfOk⟩ 0
        [IterInput.mk false true ⟨some []⟩ 1 113]).events
        = pre ++ Speaker.speak ⟨false, pfOk⟩
            "Shutting down assistive AI system.") :=
  ⟨by decide, rfl, rfl, rfl,
   quit_signal_behavior 3 remotePadded ⟨false, pfOk⟩ 0
     (IterInput.mk false true ⟨some []⟩ 1 113) [] 81 (by decide) rfl rfl rfl⟩

/-- **C2 counterexample.** On camera-open failure `start` returns before the
`try/finally`: the run ends with the camera-failure exit reason, yet neither
the camera release, nor the display close, nor the shutdown banner appears
in its events — so this exit path does not route through `cleanup`. -/
theorem camera_failure_skips_cleanup_counterexample :
    (AssistiveAI.start false 3 remotePadded ⟨false, pfOk⟩ []).exit
        = ExitReason.cameraFail
  ∧ Event.releaseCamera
      ∉ (AssistiveAI.start false 3 remotePadded ⟨false, pfOk⟩ []).events
  ∧ Event.destroyWindows
      ∉ (AssistiveAI.start false 3 remotePadded ⟨false, pfOk⟩ []).events
  ∧ Event.print "SYSTEM SHUTDOWN COMPLETE"
      ∉ (AssistiveAI.start false 3 remotePadded ⟨false, pfOk⟩ []).events := by
  refine ⟨rfl, ?_, ?_, ?_⟩ <;> decide

/-- **C2 (amended).** Every exit of the loop body — quit key, frame-read
failure, keyboard interruption — routes through the same `cleanup`, which
releases the camera, closes the display and prints the shutdown banner
exactly once (nothing before it releases a resource). Camera-open failure is
the exception: `start` then returns without running `cleanup`. -/
theorem exit_paths_cleanup (cameraOk : Bool) (interval : Rat)
    (remote : RemoteOracle) (sp : Speaker) (inputs : List IterInput)
    (hexit : (AssistiveAI.start cameraOk interval remote sp inputs).exit
          = ExitReason.readFail
      ∨ (AssistiveAI.start cameraOk interval remote sp inputs).exit
          = ExitReason.quitKey
      ∨ (AssistiveAI.start cameraOk interval remote sp inputs).exit
          = ExitReason.interrupted) :
    ∃ pre, (AssistiveAI.start cameraOk interval remote sp inputs).events
        = pre ++ AssistiveAI.cleanup true
      ∧ ∀ e ∈ pre, isResourceRelease e = false := by
  cases cameraOk with
  | false =>
    rcases hexit with h | h | h <;> exact ExitReason.noConfusion h
  | true =>
    have hL : (AssistiveAI.loopRun interval remote sp 0 inputs).exit
          = ExitReason.readFail
        ∨ (AssistiveAI.loopRun interval remote sp 0 inputs).exit
          = ExitReason.quitKey
        ∨ (AssistiveAI.loopRun interval remote sp 0 inputs).exit
          = ExitReason.interrupted := hexit
    have hne : ¬ (AssistiveAI.loopRun interval remote sp 0 inputs).exit
        = ExitReason.stillRunning := by
      rcases hL with h | h | h <;> rw [h] <;> decide
    have hev : (AssistiveAI.start true interval remote sp inputs).events
        = Event.cameraOpen :: AssistiveAI.startBanner interval ++
            sp.speak "Assistive AI system activated." ++
            (AssistiveAI.loopRun interval remote sp 0 inputs).events ++
            AssistiveAI.cleanup true := by
      show Event.cameraOpen :: AssistiveAI.startBanner interval ++
            sp.speak "Assistive AI system activated." ++
            (AssistiveAI.loopRun interval remote sp 0 inputs).events ++
            (if (AssistiveAI.loopRun interval remote sp 0 inputs).exit
                = ExitReason.stillRunning then []
             else AssistiveAI.cleanup true)
          = _
      rw [if_neg hne]
    refine ⟨Event.cameraOpen :: AssistiveAI.startBanner interval ++
        sp.speak "Assistive AI system activated." ++
        (AssistiveAI.loopRun interval remote sp 0 inputs).events, ?_, ?_⟩
    · rw [hev]
    · intro e he
      rcases List.mem_cons.mp he with h | h
      · subst h; rfl
      · rcases List.mem_append.mp h with h | h
        · rcases List.mem_append.mp h with h | h
          · simp [AssistiveAI.startBanner] at h
            rcases h with h | h | h | h | h <;> subst h <;> rfl
          · exact speak_no_release sp _ true e h
        · exact loopRun_no_release interval remote sp 0 inputs e h

/-- Witness for `exit_paths_cleanup` on a run whose first frame read fails. -/
theorem exit_paths_cleanup_witness :
    ((AssistiveAI.start true 3 remotePadded ⟨false, pfOk⟩ readFailInputs).exit
          = ExitReason.readFail
      ∨ (AssistiveAI.start true 3 remotePadded ⟨false, pfOk⟩
            readFailInputs).exit = ExitReason.quitKey
      ∨ (AssistiveAI.start true 3 remotePadded ⟨false, pfOk⟩
            readFailInputs).exit = ExitReason.interrupted)
  ∧ ∃ pre, (AssistiveAI.start true 3 remotePadded ⟨false, pfOk⟩
          readFailInputs).events
        = pre ++ AssistiveAI.cleanup true
      ∧ ∀ e ∈ pre, isResourceRelease e = false :=
  ⟨Or.inl rfl,
   exit_paths_cleanup true 3 remotePadded ⟨false, pfOk⟩ readFailInputs
     (Or.inl rfl)⟩

/-- **C6.** When every one of the three credential variables is unset or
empty, the module-level check raises the descriptive `ValueError` and the
process performs nothing else: no event at all is emitted, in particular no
camera open and no detector construction. When at least one is non-empty,
the chained `or` picks the first non-empty of the three as the credential. -/
theorem credential_startup_gate (g₁ g₂ g₃ : Option String) (ttsOk : Bool)
    (ttsErr : String) (pf : String → Option String) (cameraOk : Bool)
    (interval : Rat) (remote : RemoteOracle) (inputs : List IterInput)
    (h₁ : truthy g₁ = false) (h₂ : truthy g₂ = false)
    (h₃ : truthy g₃ = false) :
    (runProgram g₁ g₂ g₃ ttsOk ttsErr pf cameraOk interval remote
        inputs).raised = some missingKeyMessage
  ∧ (runProgram g₁ g₂ g₃ ttsOk ttsErr pf cameraOk interval remote
        inputs).events = []
  ∧ Event.cameraOpen ∉ (runProgram g₁ g₂ g₃ ttsOk ttsErr pf cameraOk interval
        remote inputs).events
  ∧ Event.constructDetector ∉ (runProgram g₁ g₂ g₃ ttsOk ttsErr pf cameraOk
        interval remote inputs).events
  ∧ ∀ e₁ e₂ e₃ : Option String,
      (truthy e₁ = true →
        (runProgram e₁ e₂ e₃ ttsOk ttsErr pf cameraOk interval remote
          inputs).usedKey = e₁)
    ∧ (truthy e₁ = false → truthy e₂ = true →
        (runProgram e₁ e₂ e₃ ttsOk ttsErr pf cameraOk interval remote
          inputs).usedKey = e₂)
    ∧ (truthy e₁ = false → truthy e₂ = false → truthy e₃ = true →
        (runProgram e₁ e₂ e₃ ttsOk ttsErr pf cameraOk interval remote
          inputs).usedKey = e₃) := by
  have hkey : API_KEY g₁ g₂ g₃ = g₃ := by simp [API_KEY, pyOr, h₁, h₂]
  have hrun : runProgram g₁ g₂ g₃ ttsOk ttsErr pf cameraOk interval remote
      inputs = ⟨[], some missingKeyMessage, none⟩ := by
    simp [runProgram, hkey, h₃]
  refine ⟨by rw [hrun], by rw [hrun], by rw [hrun]; simp, by rw [hrun]; simp,
    ?_⟩
  intro e₁ e₂ e₃
  refine ⟨?_, ?_, ?_⟩
  · intro t₁
    simp [runProgram, API_KEY, pyOr, t₁]
  · intro f₁ t₂
    simp [runProgram, API_KEY, pyOr, f₁, t₂]
  · intro f₁ f₂ t₃
    simp [runProgram, API_KEY, pyOr, f₁, f₂, t₃]

/-- Witness for `credential_startup_gate` with all three variables unset. -/
theorem credential_startup_gate_witness :
    truthy none = false
  ∧ ((runProgram none none none true "" pfOk true 3 remotePadded []).raised
        = some missingKeyMessage
    ∧ (runProgram none none none true "" pfOk true 3 remotePadded []).events
        = []
    ∧ Event.cameraOpen
        ∉ (runProgram none none none true "" pfOk true 3 remotePadded
            []).events
    ∧ Event.constructDetector
        ∉ (runProgram none none none true "" pfOk true 3 remotePadded
            []).events
    ∧ ∀ e₁ e₂ e₃ : Option String,
        (truthy e₁ = true →
          (runProgram e₁ e₂ e₃ true "" pfOk true 3 remotePadded
            []).usedKey = e₁)
      ∧ (truthy e₁ = false → truthy e₂ = true →
          (runProgram e₁ e₂ e₃ true "" pfOk true 3 remotePadded
            []).usedKey = e₂)
      ∧ (truthy e₁ = false → truthy e₂ = false → truthy e₃ = true →
          (runProgram e₁ e₂ e₃ true "" pfOk true 3 remotePadded
            []).usedKey = e₃)) :=
  ⟨rfl,
   credential_startup_gate none none none true "" pfOk true 3 remotePadded []
     rfl rfl rfl⟩

end VisionX
